import Mathlib

/-!
# Verification of the build/probe engine of `rust-ffmpeg-sys` (`build.rs`)

This file shallowly embeds the parts of `build.rs` that the verified claims
are about:

* sysroot resolution for cross builds (`find_sysroot`),
* the cross toolchain derivation in `build` (`--cross-prefix` handling),
* the capability-probe generator/parser (`check_features`): its feature
  gating, generated include/print statements, the bracketed-tag wire
  protocol and its positional stdout parser,
* the declarative data tables (`infos` passed to `check_features`,
  `version_check_info`, `ffmpeg_lavc_versions`),
* the installed-artifact check in `main` that skips fetch/build.

Process environment lookups (`env::var`) are modelled as a function
`String → Option String` (absent variable = `none`); the outside world
(paths existing, the `xcrun` subprocess) is a separate structure.  Strings
are ASCII here, so Rust's byte indices coincide with character indices.
-/

namespace FfmpegSys

/-- `matchesHere pat s` is true when `pat` occurs at the very start of `s`
(character-by-character comparison, as Rust's byte-slice comparison does). -/
def matchesHere : List Char → List Char → Bool
  | [], _ => true
  | _ :: _, [] => false
  | p :: ps, c :: cs => p == c && matchesHere ps cs

/-- `findSub hay pat` is the first index of `hay` at which `pat` occurs, or
`none`; this embeds Rust's `str::find` for a literal pattern
(`build.rs` line 843 and 868). -/
def findSub : List Char → List Char → Option Nat
  | [], pat => if pat.isEmpty then some 0 else none
  | c :: t, pat =>
    if matchesHere pat (c :: t) then some 0
    else (findSub t pat).map (fun n => n + 1)

/-- Substring containment on strings, used by the include dedup check
`includes_code.contains(&include)` (`build.rs` line 729). -/
def strContains (hay pat : String) : Bool :=
  (findSub hay.data pat.data).isSome

/-- `replace("\n", "")` applied to the `xcrun` output (`build.rs` line 226). -/
def stripNl (s : String) : String :=
  ⟨s.data.filter (fun c => decide (c ≠ '\n'))⟩

/-- The process environment: `env::var name` is `var name`, `none` standing
for `Err(VarError::NotPresent)`. -/
structure Env where
  var : String → Option String

/-- Captured result of running `xcrun --sdk iphoneos --show-sdk-path`:
exit status success flag, stdout and stderr. -/
structure XcrunOut where
  success : Bool
  out : String
  err : String

/-- The ambient world outside the process environment: whether a path
exists on disk, and the outcome of spawning `xcrun` (`none` = the spawn
itself failed, i.e. the tool is unavailable). -/
structure World where
  xcrun : Option XcrunOut
  pathExists : String → Bool

/-- Result of `find_sysroot`: either a normal return (with the optional
sysroot and whether the cross-without-sysroot cargo warning was printed),
or a fatal `panic!`/`expect` abort carrying the message. -/
inductive SysrootRes where
  | ok (sysroot : Option String) (warned : Bool)
  | fatal (msg : String)
  deriving DecidableEq, Repr

/-- Shallow embedding of `find_sysroot` (`build.rs` lines 205-247).

* build feature off or `HOST == TARGET` (comparison of the two `env::var`
  results) → no sysroot;
* explicit `SYSROOT` override used verbatim;
* target os `ios`: ask `xcrun` for the SDK path; fatal if the spawn fails,
  the status is non-success, or the reported path does not exist;
* target os `android`: require `CARGO_NDK_SYSROOT_PATH` to be set and to
  exist, else fatal (the message naming the offending path);
* any other cross target: cargo warning, no sysroot. -/
def find_sysroot (e : Env) (w : World) : SysrootRes :=
  if e.var "CARGO_FEATURE_BUILD" = none ∨ e.var "HOST" = e.var "TARGET" then
    .ok none false
  else
    match e.var "SYSROOT" with
    | some sysroot => .ok (some sysroot) false
    | none =>
      if e.var "CARGO_CFG_TARGET_OS" = some "ios" then
        match w.xcrun with
        | none => .fatal "failed to run xcrun"
        | some r =>
          if r.success = false then
            .fatal ("Failed to run xcrun to get the ios sysroot, please install xcode tools or provide sysroot using $SYSROOT env. Error: " ++ r.err)
          else
            let s := stripNl r.out
            if w.pathExists s then .ok (some s) false
            else .fatal ("xcrun returned invalid sysroot path: " ++ s)
      else if e.var "CARGO_CFG_TARGET_OS" = some "android" then
        match e.var "CARGO_NDK_SYSROOT_PATH" with
        | none => .fatal "Missing android sysroot path. For android cross compilation please use cargo-ndk which exposes all the required NDK paths throught env variables."
        | some sysroot_path =>
          if w.pathExists sysroot_path then .ok (some sysroot_path) false
          else .fatal ("Android sysroot path does not exists: " ++ sysroot_path)
      else
        .ok none true

/-! ## Version gates and era labels (`check_features`, lines 754-771 and 884-925) -/

/-- The declared version-threshold grid: `[("avcodec", 56, 63, 0, 108)]`
(`build.rs` line 754); a print statement is generated per `(major, minor)`
with major in `[56, 63)` and minor in `[0, 108)`. -/
def version_check_info : List (String × Nat × Nat × Nat × Nat) :=
  [("avcodec", 56, 63, 0, 108)]

/-- The boolean C expression generated per grid point (`build.rs` line 762):
`LIB*_VERSION_MAJOR > major || (LIB*_VERSION_MAJOR == major &&
LIB*_VERSION_MINOR > minor)`, evaluated by the probe program at run time on
the installed library's version macros `(vmaj, vmin)`. -/
def version_greater_than (vmaj vmin majorV minorV : Nat) : Bool :=
  decide (vmaj > majorV) || (decide (vmaj = majorV) && decide (vmin > minorV))

/-- The bracketed tag string generated for one grid point of the version
matrix (`build.rs` line 762): `[<lib>_version_greater_than_<major>_<minor>]`. -/
def versionTag (lib : String) (majorV minorV : Nat) : String :=
  "[" ++ lib ++ "_version_greater_than_" ++ toString majorV ++ "_" ++
    toString minorV ++ "]"

/-- The era-label table `ffmpeg_lavc_versions` (`build.rs` lines 884-902),
verbatim: `(label, libavcodec major, libavcodec minor)`.  Note the label
`"ffmpeg_3_1"` appears twice, at `(57, 48)` and at `(57, 107)`. -/
def ffmpeg_lavc_versions : List (String × Nat × Nat) :=
  [("ffmpeg_3_0", 57, 24),
   ("ffmpeg_3_1", 57, 48),
   ("ffmpeg_3_2", 57, 64),
   ("ffmpeg_3_3", 57, 89),
   ("ffmpeg_3_1", 57, 107),
   ("ffmpeg_4_0", 58, 18),
   ("ffmpeg_4_1", 58, 35),
   ("ffmpeg_4_2", 58, 54),
   ("ffmpeg_4_3", 58, 91),
   ("ffmpeg_4_4", 58, 100),
   ("ffmpeg_5_0", 59, 18),
   ("ffmpeg_5_1", 59, 37),
   ("ffmpeg_6_0", 60, 3),
   ("ffmpeg_6_1", 60, 31),
   ("ffmpeg_7_0", 61, 3),
   ("ffmpeg_7_1", 61, 19),
   ("ffmpeg_8_0", 62, 8)]

/-- The tag string the era loop searches the probe stdout for
(`build.rs` lines 906-910): for an era row `(label, major, minor)` it looks
up the grid tag of `(major, minor - 1)`. -/
def eraSearchStr (majorV minorV : Nat) : String :=
  "[avcodec_version_greater_than_" ++ toString majorV ++ "_" ++
    toString (minorV - 1) ++ "]"

/-- The value an era row `(label, major, minor)` resolves to when the probed
libavcodec version is `(vmaj, vmin)`: the digit printed after the grid tag
of `(major, minor - 1)`, which the probe program computed as
`version_greater_than vmaj vmin major (minor - 1)`. -/
def eraSignal (vmaj vmin majorV minorV : Nat) : Bool :=
  version_greater_than vmaj vmin majorV (minorV - 1)

/-! ## Cross toolchain derivation in `build` (`build.rs` lines 296-329) -/

/-- Repeatedly drop a leading `r`,`w`,`-` run: this is Rust's
`trim_end_matches("-wr")` transported through `List.reverse`. -/
def dropRevWr : List Char → List Char
  | c1 :: c2 :: c3 :: t =>
    if c1 == 'r' && c2 == 'w' && c3 == '-' then dropRevWr t
    else c1 :: c2 :: c3 :: t
  | s => s

/-- Rust `str::trim_end_matches("-wr")`: remove every trailing repetition of
the wrapper suffix `-wr` (`build.rs` line 325). -/
def trimEndWr (s : List Char) : List Char :=
  (dropRevWr s.reverse).reverse

/-- Rust `str::rfind('-')`: index of the last `'-'`, if any. -/
def rfindDash (s : List Char) : Option Nat :=
  match findSub s.reverse ['-'] with
  | none => none
  | some j => some (s.length - 1 - j)

/-- The `--cross-prefix` argument `build` derives from the resolved host
compiler's file stem (`build.rs` lines 296-329): only in a cross build
(`target ≠ host`), never for android, and only when the stem contains a
`'-'`; the argument is the stem up to (excluding) the last `'-'`, with
every trailing `-wr` wrapper suffix removed, followed by `'-'`. -/
def crossCompilePfxArg (target host targetOs : String) (stem : List Char) :
    Option (List Char) :=
  if target = host then none
  else if targetOs = "android" then none
  else
    match rfindDash stem with
    | none => none
    | some i =>
      some ("--cross-prefix=".data ++ trimEndWr (stem.take i) ++ ['-'])

/-- A version `(vmaj, vmin)` strictly greater than `major.minor`, stated
arithmetically. -/
def versionAboveProp (vmaj vmin majorV minorV : Nat) : Prop :=
  majorV < vmaj ∨ (vmaj = majorV ∧ minorV < vmin)

/-! ## The probe table and generator/parser of `check_features`
(`build.rs` lines 714-859 and the literal table at lines 1148-1448) -/

/-- One row of the table `main` passes to `check_features`
(`build.rs` lines 1150-1447): `(header, gating feature, symbol name)`. -/
abbrev Info := String × Option String × String

/-- The literal probe table from `main` (`build.rs` lines 1150-1447),
transcribed verbatim and in order. -/
def infos : List Info :=
  [("libavutil/avutil.h", none, "FF_API_OLD_AVOPTIONS"),
   ("libavutil/avutil.h", none, "FF_API_PIX_FMT"),
   ("libavutil/avutil.h", none, "FF_API_CONTEXT_SIZE"),
   ("libavutil/avutil.h", none, "FF_API_PIX_FMT_DESC"),
   ("libavutil/avutil.h", none, "FF_API_AV_REVERSE"),
   ("libavutil/avutil.h", none, "FF_API_AUDIOCONVERT"),
   ("libavutil/avutil.h", none, "FF_API_CPU_FLAG_MMX2"),
   ("libavutil/avutil.h", none, "FF_API_LLS_PRIVATE"),
   ("libavutil/avutil.h", none, "FF_API_AVFRAME_LAVC"),
   ("libavutil/avutil.h", none, "FF_API_VDPAU"),
   ("libavutil/avutil.h", none, "FF_API_GET_CHANNEL_LAYOUT_COMPAT"),
   ("libavutil/avutil.h", none, "FF_API_XVMC"),
   ("libavutil/avutil.h", none, "FF_API_OPT_TYPE_METADATA"),
   ("libavutil/avutil.h", none, "FF_API_DLOG"),
   ("libavutil/avutil.h", none, "FF_API_HMAC"),
   ("libavutil/avutil.h", none, "FF_API_VAAPI"),
   ("libavutil/avutil.h", none, "FF_API_PKT_PTS"),
   ("libavutil/avutil.h", none, "FF_API_ERROR_FRAME"),
   ("libavutil/avutil.h", none, "FF_API_FRAME_QP"),
   ("libavcodec/avcodec.h", some "avcodec", "FF_API_VIMA_DECODER"),
   ("libavcodec/avcodec.h", some "avcodec", "FF_API_REQUEST_CHANNELS"),
   ("libavcodec/avcodec.h", some "avcodec", "FF_API_OLD_DECODE_AUDIO"),
   ("libavcodec/avcodec.h", some "avcodec", "FF_API_OLD_ENCODE_AUDIO"),
   ("libavcodec/avcodec.h", some "avcodec", "FF_API_OLD_ENCODE_VIDEO"),
   ("libavcodec/avcodec.h", some "avcodec", "FF_API_CODEC_ID"),
   ("libavcodec/avcodec.h", some "avcodec", "FF_API_AUDIO_CONVERT"),
   ("libavcodec/avcodec.h", some "avcodec", "FF_API_AVCODEC_RESAMPLE"),
   ("libavcodec/avcodec.h", some "avcodec", "FF_API_DEINTERLACE"),
   ("libavcodec/avcodec.h", some "avcodec", "FF_API_DESTRUCT_PACKET"),
   ("libavcodec/avcodec.h", some "avcodec", "FF_API_GET_BUFFER"),
   ("libavcodec/avcodec.h", some "avcodec", "FF_API_MISSING_SAMPLE"),
   ("libavcodec/avcodec.h", some "avcodec", "FF_API_LOWRES"),
   ("libavcodec/avcodec.h", some "avcodec", "FF_API_CAP_VDPAU"),
   ("libavcodec/avcodec.h", some "avcodec", "FF_API_BUFS_VDPAU"),
   ("libavcodec/avcodec.h", some "avcodec", "FF_API_VOXWARE"),
   ("libavcodec/avcodec.h", some "avcodec", "FF_API_SET_DIMENSIONS"),
   ("libavcodec/avcodec.h", some "avcodec", "FF_API_DEBUG_MV"),
   ("libavcodec/avcodec.h", some "avcodec", "FF_API_AC_VLC"),
   ("libavcodec/avcodec.h", some "avcodec", "FF_API_OLD_MSMPEG4"),
   ("libavcodec/avcodec.h", some "avcodec", "FF_API_ASPECT_EXTENDED"),
   ("libavcodec/avcodec.h", some "avcodec", "FF_API_THREAD_OPAQUE"),
   ("libavcodec/avcodec.h", some "avcodec", "FF_API_CODEC_PKT"),
   ("libavcodec/avcodec.h", some "avcodec", "FF_API_ARCH_ALPHA"),
   ("libavcodec/avcodec.h", some "avcodec", "FF_API_ERROR_RATE"),
   ("libavcodec/avcodec.h", some "avcodec", "FF_API_QSCALE_TYPE"),
   ("libavcodec/avcodec.h", some "avcodec", "FF_API_MB_TYPE"),
   ("libavcodec/avcodec.h", some "avcodec", "FF_API_MAX_BFRAMES"),
   ("libavcodec/avcodec.h", some "avcodec", "FF_API_NEG_LINESIZES"),
   ("libavcodec/avcodec.h", some "avcodec", "FF_API_EMU_EDGE"),
   ("libavcodec/avcodec.h", some "avcodec", "FF_API_ARCH_SH4"),
   ("libavcodec/avcodec.h", some "avcodec", "FF_API_ARCH_SPARC"),
   ("libavcodec/avcodec.h", some "avcodec", "FF_API_UNUSED_MEMBERS"),
   ("libavcodec/avcodec.h", some "avcodec", "FF_API_IDCT_XVIDMMX"),
   ("libavcodec/avcodec.h", some "avcodec", "FF_API_INPUT_PRESERVED"),
   ("libavcodec/avcodec.h", some "avcodec", "FF_API_NORMALIZE_AQP"),
   ("libavcodec/avcodec.h", some "avcodec", "FF_API_GMC"),
   ("libavcodec/avcodec.h", some "avcodec", "FF_API_MV0"),
   ("libavcodec/avcodec.h", some "avcodec", "FF_API_CODEC_NAME"),
   ("libavcodec/avcodec.h", some "avcodec", "FF_API_AFD"),
   ("libavcodec/avcodec.h", some "avcodec", "FF_API_VISMV"),
   ("libavcodec/avcodec.h", some "avcodec", "FF_API_DV_FRAME_PROFILE"),
   ("libavcodec/avcodec.h", some "avcodec", "FF_API_AUDIOENC_DELAY"),
   ("libavcodec/avcodec.h", some "avcodec", "FF_API_VAAPI_CONTEXT"),
   ("libavcodec/avcodec.h", some "avcodec", "FF_API_AVCTX_TIMEBASE"),
   ("libavcodec/avcodec.h", some "avcodec", "FF_API_MPV_OPT"),
   ("libavcodec/avcodec.h", some "avcodec", "FF_API_STREAM_CODEC_TAG"),
   ("libavcodec/avcodec.h", some "avcodec", "FF_API_QUANT_BIAS"),
   ("libavcodec/avcodec.h", some "avcodec", "FF_API_RC_STRATEGY"),
   ("libavcodec/avcodec.h", some "avcodec", "FF_API_CODED_FRAME"),
   ("libavcodec/avcodec.h", some "avcodec", "FF_API_MOTION_EST"),
   ("libavcodec/avcodec.h", some "avcodec", "FF_API_WITHOUT_PREFIX"),
   ("libavcodec/avcodec.h", some "avcodec", "FF_API_CONVERGENCE_DURATION"),
   ("libavcodec/avcodec.h", some "avcodec", "FF_API_PRIVATE_OPT"),
   ("libavcodec/avcodec.h", some "avcodec", "FF_API_CODER_TYPE"),
   ("libavcodec/avcodec.h", some "avcodec", "FF_API_RTP_CALLBACK"),
   ("libavcodec/avcodec.h", some "avcodec", "FF_API_STAT_BITS"),
   ("libavcodec/avcodec.h", some "avcodec", "FF_API_VBV_DELAY"),
   ("libavcodec/avcodec.h", some "avcodec", "FF_API_SIDEDATA_ONLY_PKT"),
   ("libavcodec/avcodec.h", some "avcodec", "FF_API_AVPICTURE"),
   ("libavformat/avformat.h", some "avformat", "FF_API_LAVF_BITEXACT"),
   ("libavformat/avformat.h", some "avformat", "FF_API_LAVF_FRAC"),
   ("libavformat/avformat.h", some "avformat", "FF_API_URL_FEOF"),
   ("libavformat/avformat.h", some "avformat", "FF_API_PROBESIZE_32"),
   ("libavformat/avformat.h", some "avformat", "FF_API_LAVF_AVCTX"),
   ("libavformat/avformat.h", some "avformat", "FF_API_OLD_OPEN_CALLBACKS"),
   ("libavfilter/avfilter.h", some "avfilter", "FF_API_AVFILTERPAD_PUBLIC"),
   ("libavfilter/avfilter.h", some "avfilter", "FF_API_FOO_COUNT"),
   ("libavfilter/avfilter.h", some "avfilter", "FF_API_OLD_FILTER_OPTS"),
   ("libavfilter/avfilter.h", some "avfilter", "FF_API_OLD_FILTER_OPTS_ERROR"),
   ("libavfilter/avfilter.h", some "avfilter", "FF_API_AVFILTER_OPEN"),
   ("libavfilter/avfilter.h", some "avfilter", "FF_API_OLD_FILTER_REGISTER"),
   ("libavfilter/avfilter.h", some "avfilter", "FF_API_OLD_GRAPH_PARSE"),
   ("libavfilter/avfilter.h", some "avfilter", "FF_API_NOCONST_GET_NAME"),
   ("libavresample/avresample.h", some "avresample", "FF_API_RESAMPLE_CLOSE_OPEN"),
   ("libswscale/swscale.h", some "swscale", "FF_API_SWS_CPU_CAPS"),
   ("libswscale/swscale.h", some "swscale", "FF_API_ARCH_BFIN")]

/-- Whether `check_features` processes a row: rows with a gating feature
are skipped unless `CARGO_FEATURE_<FEATURE>` is present in the environment
(`build.rs` lines 721-726 and, identically, 829-834). -/
def selected (e : Env) (i : Info) : Bool :=
  match i.2.1 with
  | some feat => (e.var ("CARGO_FEATURE_" ++ feat.toUpper)).isSome
  | none => true

/-- The rows of a table that `check_features` actually processes. -/
def probeEntriesOf (e : Env) (tbl : List Info) : List Info :=
  tbl.filter (selected e)

/-- The processed rows of the actual table. -/
def probeEntries (e : Env) : List Info := probeEntriesOf e infos

/-- The include directive generated for a header (`build.rs` line 728). -/
def includeLine (header : String) : String := "#include <" ++ header ++ ">"

/-- The macro block appended to `includes_code` per processed row
(`build.rs` lines 733-745): defines the symbol as `0` when undefined and a
companion `*_is_defined` flag. -/
def macroBlock (v : String) : String :=
  "\n            #ifndef " ++ v ++ "_is_defined\n            #ifndef " ++ v ++
  "\n            #define " ++ v ++ " 0\n            #define " ++ v ++
  "_is_defined 0\n            #else\n            #define " ++ v ++
  "_is_defined 1\n            #endif\n            #endif\n        "

/-- The print statement appended to `main_code` per processed row
(`build.rs` lines 747-751): tag, truthiness digit, definedness digit. -/
def printStmt (v : String) : String :=
  "printf(\"[" ++ v ++ "]%d%d\\n\", " ++ v ++ ", " ++ v ++ "_is_defined);\n            "

/-- The accumulated `includes_code` (`build.rs` lines 718-745): per
processed row, the include directive if not already present as a substring,
then the macro block. -/
def includesCodeOf (e : Env) (tbl : List Info) : String :=
  (probeEntriesOf e tbl).foldl
    (fun acc i =>
      (if strContains acc (includeLine i.1) then acc
       else acc ++ includeLine i.1 ++ "\n") ++ macroBlock i.2.2)
    ""

/-- The print statement generated per version-grid point
(`build.rs` lines 760-768). -/
def versionPrintStmt (lib : String) (majorV minorV : Nat) : String :=
  "printf(\"" ++ versionTag lib majorV minorV ++ "%d\\n\", LIB" ++ lib.toUpper ++
  "_VERSION_MAJOR > " ++ toString majorV ++ " || (LIB" ++ lib.toUpper ++
  "_VERSION_MAJOR == " ++ toString majorV ++ " && LIB" ++ lib.toUpper ++
  "_VERSION_MINOR > " ++ toString minorV ++ "));\n                    "

/-- The version-grid portion of `main_code` (`build.rs` lines 754-771):
independent of the probe table. -/
def versionPrints : String :=
  version_check_info.foldl
    (fun acc x =>
      (List.range' x.2.1 (x.2.2.1 - x.2.1)).foldl
        (fun acc2 m =>
          (List.range' x.2.2.2.1 (x.2.2.2.2 - x.2.2.2.1)).foldl
            (fun acc3 n => acc3 ++ versionPrintStmt x.1 m n) acc2)
        acc)
    ""

/-- The accumulated `main_code` (`build.rs` lines 719-771): one print
statement per processed row, then the version-grid print statements. -/
def mainCodeOf (e : Env) (tbl : List Info) : String :=
  (probeEntriesOf e tbl).foldl (fun acc i => acc ++ printStmt i.2.2) "" ++
    versionPrints

/-- The bracketed tag the parser searches for a symbol
(`build.rs` line 840: `format!("[{var}]")`). -/
def tagOf (v : String) : List Char := '[' :: v.data ++ [']']

/-- The (header, gating feature) pairs occurring in the probe table: each
header is owned by exactly one gate. -/
def hdrGate : List (String × Option String) :=
  [("libavutil/avutil.h", none),
   ("libavcodec/avcodec.h", some "avcodec"),
   ("libavformat/avformat.h", some "avformat"),
   ("libavfilter/avfilter.h", some "avfilter"),
   ("libavresample/avresample.h", some "avresample"),
   ("libswscale/swscale.h", some "swscale")]

/-- A base-256 numeric key for an ASCII string, used to check distinctness
of the table's symbol names cheaply (two strings with equal keys would have
to collide in every base-256 digit). -/
def strKey (v : String) : Nat :=
  v.data.foldl (fun a c => a * 256 + c.toNat) 7

/-- The positional stdout parser for one symbol (`build.rs` lines 840-858):
find the tag, then read the two characters immediately after it; the
truthiness flag is the comparison of the first with `"1"`, the definedness
flag the comparison of the second with `"1"`.  `none` models the panics
(tag missing, or slice out of range). -/
def parseFlags (stdout : List Char) (v : String) : Option (Bool × Bool) :=
  (findSub stdout (tagOf v)).bind fun idx =>
    (stdout[idx + (tagOf v).length]?).bind fun c1 =>
      (stdout[idx + (tagOf v).length + 1]?).map fun c2 =>
        (c1 == '1', c2 == '1')

/-- The first character following a symbol's bracketed tag in the probe
stdout, when the tag occurs. -/
def firstAfterTag (stdout : List Char) (v : String) : Option Char :=
  (findSub stdout (tagOf v)).bind fun idx => stdout[idx + (tagOf v).length]?

/-- The parse results the reader loop produces (`build.rs` lines 829-858):
one per processed row, in table order, gated rows skipped. -/
def parsedVarsOf (e : Env) (stdout : List Char) (tbl : List Info) :
    List (String × Option (Bool × Bool)) :=
  (probeEntriesOf e tbl).map (fun i => (i.2.2, parseFlags stdout i.2.2))

/-! ## Probe compilation, signal emission and the build pipeline
(`check_features` lines 790-812, `main` lines 961-976) -/

/-- The compiler command `check_features` builds for the generated probe
translation unit (`build.rs` lines 790-799): `cc::Build::new().target(HOST)`
("don't cross-compile this") plus one `-I` per resolved include path.
`none` models the `unwrap` panic when `HOST` is absent. -/
structure ProbeCompileCmd where
  target : String
  includeDirs : List String
  deriving DecidableEq, Repr

/-- Construction of the probe compiler command from the environment and the
resolved include paths (`build.rs` lines 790-799). -/
def probeCompileCmd (e : Env) (include_paths : List String) :
    Option ProbeCompileCmd :=
  (e.var "HOST").map fun h => ⟨h, include_paths⟩

/-- The facts the executed probe binary reports, as parsed from its stdout:
per-symbol truthiness and definedness, and the installed library's version
macros.  These are a pure function of the installed headers. -/
structure ProbeFacts where
  value : String → Bool
  defined : String → Bool
  vmaj : Nat
  vmin : Nat

/-- All `(lib, major, minor)` points of the declared version grid
(`build.rs` lines 754-759). -/
def gridPoints : List (String × Nat × Nat) :=
  version_check_info.flatMap fun x =>
    (List.range' x.2.1 (x.2.2.1 - x.2.1)).flatMap fun m =>
      (List.range' x.2.2.2.1 (x.2.2.2.2 - x.2.2.2.1)).map fun n => (x.1, m, n)

/-- The cargo key emitted for a version-grid point (`build.rs` line 867,
the tag with its brackets stripped). -/
def versionSigName (lib : String) (majorV minorV : Nat) : String :=
  lib ++ "_version_greater_than_" ++ toString majorV ++ "_" ++ toString minorV

/-- The flat named boolean signal set one run of `check_features` emits
(`build.rs` lines 829-925): per processed row the lowercased symbol signal
and its `_is_defined` companion, then one signal per version-grid point,
then one era signal per era row.  It is a pure function of the environment
and the probe facts. -/
def emittedSignals (e : Env) (pf : ProbeFacts) : List (String × Bool) :=
  ((probeEntries e).flatMap fun i =>
    [(i.2.2.toLower, pf.value i.2.2),
     (i.2.2.toLower ++ "_is_defined", pf.defined i.2.2)]) ++
  (gridPoints.map fun x =>
    (versionSigName x.1 x.2.1 x.2.2,
     version_greater_than pf.vmaj pf.vmin x.2.1 x.2.2)) ++
  (ffmpeg_lavc_versions.map fun x =>
    (x.1, eraSignal pf.vmaj pf.vmin x.2.1 x.2.2))

/-- The filesystem state the build branch of `main` inspects: whether the
installed artifact `dist/lib/libavutil.a` exists (`build.rs` line 972). -/
structure FS where
  artifactInstalled : Bool
  deriving DecidableEq, Repr

/-- Outcome of one invocation of the build branch of `main`
(`build.rs` lines 966-976 followed by `check_features`): whether
`fetch()`/`build()` ran, the resulting filesystem state (a successful build
installs the artifact), and the emitted signal set. -/
structure PipelineRun where
  fetchedAndBuilt : Bool
  fs : FS
  signals : List (String × Bool)
  deriving DecidableEq, Repr

/-- One invocation of the build-feature pipeline (`build.rs` lines 961-976):
fetch and build run exactly when the installed artifact is missing; the
probe and signal emission always run. -/
def buildPipeline (e : Env) (pf : ProbeFacts) (fs : FS) : PipelineRun :=
  if fs.artifactInstalled then ⟨false, fs, emittedSignals e pf⟩
  else ⟨true, ⟨true⟩, emittedSignals e pf⟩

/-- The environment with no variables set at all (no cargo features). -/
def envEmpty : Env := ⟨fun _ => none⟩

/-- A concrete native environment: host equals target. -/
def envNative : Env :=
  ⟨fun n => if n = "CARGO_FEATURE_BUILD" then some "1"
    else if n = "HOST" then some "x86_64-unknown-linux-gnu"
    else if n = "TARGET" then some "x86_64-unknown-linux-gnu"
    else none⟩

/-- A concrete ios cross environment with no `SYSROOT` override. -/
def envIos : Env :=
  ⟨fun n => if n = "CARGO_FEATURE_BUILD" then some "1"
    else if n = "HOST" then some "aarch64-apple-darwin"
    else if n = "TARGET" then some "aarch64-apple-ios"
    else if n = "CARGO_CFG_TARGET_OS" then some "ios"
    else none⟩

/-- A concrete android cross environment with an NDK sysroot path set. -/
def envAndroid : Env :=
  ⟨fun n => if n = "CARGO_FEATURE_BUILD" then some "1"
    else if n = "HOST" then some "x86_64-unknown-linux-gnu"
    else if n = "TARGET" then some "aarch64-linux-android"
    else if n = "CARGO_CFG_TARGET_OS" then some "android"
    else if n = "CARGO_NDK_SYSROOT_PATH" then some "/ndk/sysroot"
    else none⟩

/-- A concrete cross environment for an OS that is neither ios nor android. -/
def envOtherCross : Env :=
  ⟨fun n => if n = "CARGO_FEATURE_BUILD" then some "1"
    else if n = "HOST" then some "x86_64-unknown-linux-gnu"
    else if n = "TARGET" then some "x86_64-pc-windows-gnu"
    else if n = "CARGO_CFG_TARGET_OS" then some "windows"
    else none⟩

/-- A world where no path exists and `xcrun` cannot be spawned. -/
def worldBare : World := ⟨none, fun _ => false⟩

/-- A world where `xcrun` succeeds but reports a non-existent path. -/
def worldBadXcrun : World := ⟨some ⟨true, "/no/such/sdk\n", ""⟩, fun _ => false⟩

/-- Probe facts where every symbol is absent and the version is 0.0. -/
def pfEmpty : ProbeFacts := ⟨fun _ => false, fun _ => false, 0, 0⟩

/-! ## Claim theorems, helper lemmas and witnesses -/

/-- C3: sysroot resolution handles every case as specified: (1) build
feature off or host = target resolves no sysroot and needs none; (2) on an
ios cross target without an explicit override, resolution is fatal when the
`xcrun` spawn fails, and also when `xcrun` succeeds but reports a path that
does not exist; (3) on an android cross target an externally supplied
toolchain root that does not exist is fatal with that path named in the
message; (4) any other cross target yields a non-fatal warning and no
sysroot. -/
theorem c3_sysroot_resolution :
    (∀ e w, (e.var "CARGO_FEATURE_BUILD" = none ∨ e.var "HOST" = e.var "TARGET") →
      find_sysroot e w = .ok none false) ∧
    (∀ e w, e.var "CARGO_FEATURE_BUILD" ≠ none → e.var "HOST" ≠ e.var "TARGET" →
      e.var "SYSROOT" = none → e.var "CARGO_CFG_TARGET_OS" = some "ios" →
      w.xcrun = none → find_sysroot e w = .fatal "failed to run xcrun") ∧
    (∀ e w r, e.var "CARGO_FEATURE_BUILD" ≠ none → e.var "HOST" ≠ e.var "TARGET" →
      e.var "SYSROOT" = none → e.var "CARGO_CFG_TARGET_OS" = some "ios" →
      w.xcrun = some r → r.success = true → w.pathExists (stripNl r.out) = false →
      find_sysroot e w = .fatal ("xcrun returned invalid sysroot path: " ++ stripNl r.out)) ∧
    (∀ e w p, e.var "CARGO_FEATURE_BUILD" ≠ none → e.var "HOST" ≠ e.var "TARGET" →
      e.var "SYSROOT" = none → e.var "CARGO_CFG_TARGET_OS" = some "android" →
      e.var "CARGO_NDK_SYSROOT_PATH" = some p → w.pathExists p = false →
      find_sysroot e w = .fatal ("Android sysroot path does not exists: " ++ p)) ∧
    (∀ e w, e.var "CARGO_FEATURE_BUILD" ≠ none → e.var "HOST" ≠ e.var "TARGET" →
      e.var "SYSROOT" = none → e.var "CARGO_CFG_TARGET_OS" ≠ some "ios" →
      e.var "CARGO_CFG_TARGET_OS" ≠ some "android" →
      find_sysroot e w = .ok none true) := by
  refine ⟨?_, ?_, ?_, ?_, ?_⟩
  · intro e w h
    simp only [find_sysroot, if_pos h]
  · intro e w hb ht hs hos hx
    simp [find_sysroot, hb, ht, hs, hos, hx]
  · intro e w r hb ht hs hos hx hsucc hpath
    simp [find_sysroot, hb, ht, hs, hos, hx, hsucc, hpath]
  · intro e w p hb ht hs hos hndk hpath
    simp [find_sysroot, hb, ht, hs, hos, hndk, hpath]
  · intro e w hb ht hs hios hand
    simp [find_sysroot, hb, ht, hs, hios, hand]

theorem version_greater_than_iff (vmaj vmin majorV minorV : Nat) :
    version_greater_than vmaj vmin majorV minorV = true ↔
      versionAboveProp vmaj vmin majorV minorV := by
  simp [version_greater_than, versionAboveProp]

/-- C6: within the declared grid (`major ∈ [56, 63)`, `minor ∈ [0, 108)`),
the generated version-gate check is monotone in the minor coordinate: if
the check at `(major, minor)` is true for a fixed probed library version,
the check at `(major, minor - 1)` is true as well. -/
theorem c6_version_gate_monotone (vmaj vmin majorV minorV : Nat)
    (_hlo : 56 ≤ majorV) (_hhi : majorV < 63) (hmlo : 1 ≤ minorV)
    (_hmhi : minorV < 108)
    (h : version_greater_than vmaj vmin majorV minorV = true) :
    version_greater_than vmaj vmin majorV (minorV - 1) = true := by
  rw [version_greater_than_iff] at h ⊢
  rcases h with h | ⟨h1, h2⟩
  · exact Or.inl h
  · exact Or.inr ⟨h1, by omega⟩

/-- Witness for C6 at the concrete grid point `(57, 48)` with probed
version `57.50`. -/
theorem c6_version_gate_monotone_witness :
    version_greater_than 57 50 57 48 = true ∧
    version_greater_than 57 50 57 47 = true :=
  ⟨by decide,
   c6_version_gate_monotone 57 50 57 48 (by decide) (by decide) (by decide)
     (by decide) (by decide)⟩

/-- C7 (code bug): the era-label table does not map every label to exactly
one threshold: `"ffmpeg_3_1"` occurs in two rows, `(57, 48)` and
`(57, 107)`, so the list of labels is not duplicate-free; moreover for the
concrete probed libavcodec version `57.60` the two rows resolve to
contradictory values (`true` from the `(57, 48)` row, `false` from the
`(57, 107)` row) for the same signal name. -/
theorem c7_era_label_duplicate :
    ("ffmpeg_3_1", 57, 48) ∈ ffmpeg_lavc_versions ∧
    ("ffmpeg_3_1", 57, 107) ∈ ffmpeg_lavc_versions ∧
    ¬ (ffmpeg_lavc_versions.map (fun x => x.1)).Nodup ∧
    eraSignal 57 60 57 48 = true ∧
    eraSignal 57 60 57 107 = false := by
  refine ⟨by decide, by decide, by decide, by decide, by decide⟩

/-- C8: every era row `(label, major, minor)` satisfies `1 ≤ minor`, its
looked-up grid point `(major, minor - 1)` lies inside the declared probe
grid (`major ∈ [56, 63)`, `minor - 1 ∈ [0, 108)`), the searched tag string
is exactly the generated tag of that grid point, and the resolved era
signal is true exactly when the probed version is strictly greater than
`major.(minor - 1)`, equivalently at least `major.minor`. -/
theorem c8_era_signal_derivation (lbl : String) (majorV minorV : Nat)
    (hmem : (lbl, majorV, minorV) ∈ ffmpeg_lavc_versions) :
    1 ≤ minorV ∧ 56 ≤ majorV ∧ majorV < 63 ∧ minorV - 1 < 108 ∧
    eraSearchStr majorV minorV = versionTag "avcodec" majorV (minorV - 1) ∧
    ∀ vmaj vmin,
      (eraSignal vmaj vmin majorV minorV = true ↔
        versionAboveProp vmaj vmin majorV (minorV - 1)) ∧
      (eraSignal vmaj vmin majorV minorV = true ↔
        (majorV < vmaj ∨ (vmaj = majorV ∧ minorV ≤ vmin))) := by
  have hb : ∀ x ∈ ffmpeg_lavc_versions,
      1 ≤ x.2.2 ∧ 56 ≤ x.2.1 ∧ x.2.1 < 63 ∧ x.2.2 - 1 < 108 := by decide
  obtain ⟨h1, h2, h3, h4⟩ := hb _ hmem
  have h1m : 1 ≤ minorV := h1
  refine ⟨h1, h2, h3, h4, rfl, ?_⟩
  intro vmaj vmin
  constructor
  · exact version_greater_than_iff vmaj vmin majorV (minorV - 1)
  · rw [eraSignal, version_greater_than_iff, versionAboveProp]
    constructor
    · rintro (h | ⟨ha, hb2⟩)
      · exact Or.inl h
      · exact Or.inr ⟨ha, by omega⟩
    · rintro (h | ⟨ha, hb2⟩)
      · exact Or.inl h
      · exact Or.inr ⟨ha, by omega⟩

/-- Witness for C8 at the concrete era row `("ffmpeg_4_0", 58, 18)`. -/
theorem c8_era_signal_derivation_witness :
    1 ≤ 18 ∧ 56 ≤ 58 ∧ 58 < 63 ∧ 18 - 1 < 108 ∧
    eraSearchStr 58 18 = versionTag "avcodec" 58 (18 - 1) ∧
    ∀ vmaj vmin,
      (eraSignal vmaj vmin 58 18 = true ↔
        versionAboveProp vmaj vmin 58 (18 - 1)) ∧
      (eraSignal vmaj vmin 58 18 = true ↔
        (58 < vmaj ∨ (vmaj = 58 ∧ 18 ≤ vmin))) :=
  c8_era_signal_derivation "ffmpeg_4_0" 58 18 (by decide)

/-- C10: the `--cross-prefix` derivation.  For any android cross target no
such argument is derived; for any other cross target whose resolved host
compiler file stem contains a `'-'` at last position `i`, the argument is
the stem before that `'-'` with the `-wr` wrapper suffix stripped, followed
by `'-'`. -/
theorem c10_cross_pfx (target host targetOs : String) (stem : List Char) :
    (targetOs = "android" → crossCompilePfxArg target host targetOs stem = none) ∧
    (target ≠ host → targetOs ≠ "android" →
      (rfindDash stem = none → crossCompilePfxArg target host targetOs stem = none) ∧
      ∀ i, rfindDash stem = some i →
        crossCompilePfxArg target host targetOs stem =
          some ("--cross-prefix=".data ++ trimEndWr (stem.take i) ++ ['-'])) := by
  constructor
  · intro hand
    rw [crossCompilePfxArg]
    by_cases hth : target = host
    · simp [hth]
    · simp [hth, hand]
  · intro hth hand
    constructor
    · intro hnone
      simp [crossCompilePfxArg, hth, hand, hnone]
    · intro i hi
      simp [crossCompilePfxArg, hth, hand, hi]

/-- Witness for C10: android never derives the argument, and for the
wrapper-suffixed stem `arm-wr-gcc` on a non-android cross target the
derived argument is `--cross-prefix=arm-`. -/
theorem c10_cross_pfx_witness :
    crossCompilePfxArg "aarch64-linux-android" "x86_64-unknown-linux-gnu"
      "android" "aarch64-linux-android-clang".data = none ∧
    crossCompilePfxArg "armv7-unknown-linux-gnueabihf" "x86_64-unknown-linux-gnu"
      "linux" "arm-wr-gcc".data =
      some ("--cross-prefix=".data ++ trimEndWr ("arm-wr-gcc".data.take 6) ++ ['-']) ∧
    trimEndWr ("arm-wr-gcc".data.take 6) ++ ['-'] = "arm-".data :=
  ⟨(c10_cross_pfx _ _ _ _).1 rfl,
   ((c10_cross_pfx "armv7-unknown-linux-gnueabihf" "x86_64-unknown-linux-gnu"
      "linux" "arm-wr-gcc".data).2 (by decide) (by decide)).2 6 (by decide),
   by decide⟩

/-! ## Helper lemmas about the probe table and the generation loop -/

set_option maxRecDepth 4000 in
/-- Every row's (header, gate) pair is one of the six declared pairs. -/
theorem infos_hdr_gate_mem : ∀ i ∈ infos, (i.1, i.2.1) ∈ hdrGate := by decide

/-- The six (header, gate) pairs form a functional relation. -/
theorem hdrGate_functional :
    ∀ p ∈ hdrGate, ∀ q ∈ hdrGate, p.1 = q.1 → p.2 = q.2 := by decide

/-- In the probe table, rows sharing a header always carry the same gating
feature (so an unselected gate removes every use of its header). -/
theorem infos_header_determines_gate :
    ∀ i ∈ infos, ∀ j ∈ infos, i.1 = j.1 → i.2.1 = j.2.1 := by
  intro i hi j hj hhdr
  exact hdrGate_functional (i.1, i.2.1) (infos_hdr_gate_mem i hi)
    (j.1, j.2.1) (infos_hdr_gate_mem j hj) hhdr

set_option maxRecDepth 4000 in
/-- The numeric keys of the table's symbol names are pairwise distinct. -/
theorem infos_var_keys_nodup :
    ((infos.map (fun i => i.2.2)).map strKey).Nodup := by decide

/-- The symbol names of the probe table are pairwise distinct. -/
theorem infos_vars_nodup : (infos.map (fun i => i.2.2)).Nodup :=
  List.Nodup.of_map strKey infos_var_keys_nodup

/-- In the probe table, rows sharing a symbol name always carry the same
gating feature (in fact they are the same row, as symbol names are
distinct). -/
theorem infos_var_determines_gate :
    ∀ i ∈ infos, ∀ j ∈ infos, i.2.2 = j.2.2 → i.2.1 = j.2.1 := by
  intro i hi j hj hv
  have hij : i = j :=
    List.inj_on_of_nodup_map (f := fun i : Info => i.2.2) infos_vars_nodup hi hj hv
  rw [hij]

/-- A row whose gating feature is absent from the environment is not
selected. -/
theorem selected_eq_false_of_gate_off {e : Env} {i : Info} {f : String}
    (hgate : i.2.1 = some f)
    (hoff : e.var ("CARGO_FEATURE_" ++ f.toUpper) = none) :
    selected e i = false := by
  simp [selected, hgate, hoff]

/-- Removing an unselected element from a list does not change the selected
sublist. -/
theorem filter_drop_unselected {α : Type} [DecidableEq α] (p : α → Bool)
    (x : α) (hx : p x = false) :
    ∀ l : List α, (l.filter (fun j => decide (j ≠ x))).filter p = l.filter p := by
  intro l
  rw [List.filter_filter]
  apply List.filter_congr
  intro a _
  by_cases hax : a = x
  · subst hax
    simp [hx]
  · simp [hax]

/-- C1 (claim as stated is false): it is not the case that the truthiness
flag is emitted as true exactly when the first character after the tag is
any character other than `'0'`: for the probe stdout `[FF_API_LOWRES]21`
the first character after the tag is `'2'`, yet the parser reports the
truthiness flag as false, because it compares that character with `"1"`. -/
theorem c1_nonzero_truthiness_counterexample :
    ¬ (∀ (stdout : List Char) (v : String) (fl : Bool × Bool),
        parseFlags stdout v = some fl →
        (fl.1 = true ↔ ∃ c, firstAfterTag stdout v = some c ∧ c ≠ '0')) := by
  intro hclaim
  have h2 := hclaim "[FF_API_LOWRES]21".data "FF_API_LOWRES" (false, true)
    (by decide)
  have h3 : (false : Bool) = true := h2.mpr ⟨'2', by decide, by decide⟩
  exact Bool.false_ne_true h3

/-- C1 (amended): for every probed symbol whose tag the parser finds with
two characters after it, the truthiness flag is emitted as true exactly
when the first character following the bracketed tag is `'1'`. -/
theorem c1_truthiness_iff_one (stdout : List Char) (v : String)
    (fl : Bool × Bool) (hp : parseFlags stdout v = some fl) :
    fl.1 = true ↔ firstAfterTag stdout v = some '1' := by
  rw [parseFlags] at hp
  rw [firstAfterTag]
  cases hfind : findSub stdout (tagOf v) with
  | none => rw [hfind] at hp; exact absurd hp (by simp)
  | some idx =>
    rw [hfind] at hp
    rw [Option.some_bind] at hp ⊢
    cases hc1 : stdout[idx + (tagOf v).length]? with
    | none => rw [hc1] at hp; exact absurd hp (by simp)
    | some c1 =>
      rw [hc1] at hp
      rw [Option.some_bind] at hp
      cases hc2 : stdout[idx + (tagOf v).length + 1]? with
      | none => rw [hc2] at hp; exact absurd hp (by simp)
      | some c2 =>
        rw [hc2] at hp
        have hfl : fl = (c1 == '1', c2 == '1') := (Option.some_inj.mp hp).symm
        subst hfl
        simp [beq_iff_eq]

/-- Witness for the amended C1 on a concrete stdout where the digit is 1. -/
theorem c1_truthiness_iff_one_witness :
    parseFlags "[FF_API_LOWRES]11".data "FF_API_LOWRES" = some (true, true) ∧
    ((true, true).1 = true ↔
      firstAfterTag "[FF_API_LOWRES]11".data "FF_API_LOWRES" = some '1') :=
  ⟨by decide, c1_truthiness_iff_one _ _ _ (by decide)⟩

/-- C4: a probe-table row whose gating feature is not selected is skipped
in full: it is not among the processed rows, its header is not included by
any processed row, no print statement carries its symbol, the generated
`includes_code` and `main_code` are unchanged when the row is removed from
the table, and the stdout reader likewise parses exactly the rows of the
table with this row removed. -/
theorem c4_gating_correctness (e : Env) (hdr fgate v : String)
    (hmem : (hdr, some fgate, v) ∈ infos)
    (hoff : e.var ("CARGO_FEATURE_" ++ fgate.toUpper) = none) :
    (hdr, some fgate, v) ∉ probeEntries e ∧
    hdr ∉ (probeEntries e).map (fun i => i.1) ∧
    v ∉ (probeEntries e).map (fun i => i.2.2) ∧
    probeEntriesOf e (infos.filter (fun j => decide (j ≠ (hdr, some fgate, v)))) =
      probeEntries e ∧
    includesCodeOf e (infos.filter (fun j => decide (j ≠ (hdr, some fgate, v)))) =
      includesCodeOf e infos ∧
    mainCodeOf e (infos.filter (fun j => decide (j ≠ (hdr, some fgate, v)))) =
      mainCodeOf e infos ∧
    ∀ stdout,
      parsedVarsOf e stdout (infos.filter (fun j => decide (j ≠ (hdr, some fgate, v)))) =
        parsedVarsOf e stdout infos := by
  have hsel : selected e (hdr, some fgate, v) = false :=
    selected_eq_false_of_gate_off rfl hoff
  have hmemPE : (hdr, some fgate, v) ∉ probeEntries e := by
    intro hin
    have := (List.mem_filter.mp hin).2
    rw [hsel] at this
    exact Bool.false_ne_true this
  have hgateOfSel : ∀ j ∈ probeEntries e, j.2.1 ≠ some fgate := by
    intro j hj hgj
    have hsel2 : selected e j = false := selected_eq_false_of_gate_off hgj hoff
    have := (List.mem_filter.mp hj).2
    rw [hsel2] at this
    exact Bool.false_ne_true this
  have hdropped := filter_drop_unselected (selected e) (hdr, some fgate, v) hsel infos
  refine ⟨hmemPE, ?_, ?_, hdropped, ?_, ?_, ?_⟩
  · intro hin
    obtain ⟨j, hj, hj1⟩ := List.mem_map.mp hin
    have hjinfos : j ∈ infos := (List.mem_filter.mp hj).1
    have hgj : j.2.1 = some fgate := by
      have := infos_header_determines_gate j hjinfos (hdr, some fgate, v) hmem
      exact this (by rw [hj1])
    exact hgateOfSel j hj hgj
  · intro hin
    obtain ⟨j, hj, hj1⟩ := List.mem_map.mp hin
    have hjinfos : j ∈ infos := (List.mem_filter.mp hj).1
    have hgj : j.2.1 = some fgate := by
      have := infos_var_determines_gate j hjinfos (hdr, some fgate, v) hmem
      exact this (by rw [hj1])
    exact hgateOfSel j hj hgj
  · simp only [includesCodeOf, probeEntriesOf]
    rw [hdropped]
  · simp only [mainCodeOf, probeEntriesOf]
    rw [hdropped]
  · intro stdout
    simp only [parsedVarsOf, probeEntriesOf]
    rw [hdropped]

/-- Witness for C4: with no features selected, the avcodec-gated row for
`FF_API_LOWRES` contributes nothing. -/
theorem c4_gating_correctness_witness :
    ("libavcodec/avcodec.h", some "avcodec", "FF_API_LOWRES") ∈ infos ∧
    (("libavcodec/avcodec.h", some "avcodec", "FF_API_LOWRES") ∉ probeEntries envEmpty ∧
     "libavcodec/avcodec.h" ∉ (probeEntries envEmpty).map (fun i => i.1) ∧
     "FF_API_LOWRES" ∉ (probeEntries envEmpty).map (fun i => i.2.2) ∧
     probeEntriesOf envEmpty (infos.filter (fun j =>
       decide (j ≠ ("libavcodec/avcodec.h", some "avcodec", "FF_API_LOWRES")))) =
       probeEntries envEmpty ∧
     includesCodeOf envEmpty (infos.filter (fun j =>
       decide (j ≠ ("libavcodec/avcodec.h", some "avcodec", "FF_API_LOWRES")))) =
       includesCodeOf envEmpty infos ∧
     mainCodeOf envEmpty (infos.filter (fun j =>
       decide (j ≠ ("libavcodec/avcodec.h", some "avcodec", "FF_API_LOWRES")))) =
       mainCodeOf envEmpty infos ∧
     ∀ stdout,
       parsedVarsOf envEmpty stdout (infos.filter (fun j =>
         decide (j ≠ ("libavcodec/avcodec.h", some "avcodec", "FF_API_LOWRES")))) =
         parsedVarsOf envEmpty stdout infos) :=
  ⟨by decide,
   c4_gating_correctness envEmpty "libavcodec/avcodec.h" "avcodec" "FF_API_LOWRES"
     (by decide) rfl⟩

/-- `matchesHere` characterization: the pattern occurs at the start of `s`
exactly when `s` extends it by some tail. -/
theorem matchesHere_iff_append :
    ∀ p s : List Char, matchesHere p s = true ↔ ∃ t, s = p ++ t := by
  intro p
  induction p with
  | nil =>
    intro s
    simp [matchesHere]
  | cons c p ih =>
    intro s
    cases s with
    | nil => simp [matchesHere]
    | cons d s2 =>
      rw [matchesHere, Bool.and_eq_true, beq_iff_eq, ih s2]
      constructor
      · rintro ⟨hcd, t, ht⟩
        subst hcd
        exact ⟨t, by rw [List.cons_append, ht]⟩
      · rintro ⟨t, ht⟩
        rw [List.cons_append] at ht
        injection ht with h1 h2
        exact ⟨h1.symm, t, h2⟩

/-- If `xs ++ ']' :: t = ys ++ [']']` and neither `xs` nor `ys` contains
`']'`, then `xs = ys` and `t` is empty. -/
theorem append_bracket_cancel :
    ∀ (xs ys t : List Char), ']' ∉ xs → ']' ∉ ys →
      xs ++ ']' :: t = ys ++ [']'] → xs = ys ∧ t = [] := by
  intro xs
  induction xs with
  | nil =>
    intro ys t _ hys h
    cases ys with
    | nil =>
      simp only [List.nil_append, List.cons.injEq] at h
      exact ⟨rfl, h.2⟩
    | cons y ys2 =>
      rw [List.nil_append, List.cons_append] at h
      injection h with h1 _h2
      exact absurd (by rw [h1]; exact List.mem_cons_self y ys2) hys
  | cons x xs2 ih =>
    intro ys t hxs hys h
    cases ys with
    | nil =>
      rw [List.cons_append, List.nil_append] at h
      injection h with h1 _h2
      exact absurd (by rw [← h1]; exact List.mem_cons_self x xs2) hxs
    | cons y ys2 =>
      rw [List.cons_append, List.cons_append] at h
      injection h with h1 h2
      have hxs2 : ']' ∉ xs2 := fun hm => hxs (List.mem_cons_of_mem x hm)
      have hys2 : ']' ∉ ys2 := fun hm => hys (List.mem_cons_of_mem y hm)
      obtain ⟨hh, ht⟩ := ih ys2 t hxs2 hys2 h2
      exact ⟨by rw [h1, hh], ht⟩

/-- The bracketed tags of two distinct bracket-free names never start one
another: the closing bracket terminates the shorter tag inside the longer
name, which would have to contain `']'`. -/
theorem tagOf_not_start {a b : String} (hne : a ≠ b)
    (ha : ']' ∉ a.data) (hb : ']' ∉ b.data) :
    matchesHere (tagOf a) (tagOf b) = false := by
  cases hM : matchesHere (tagOf a) (tagOf b) with
  | false => rfl
  | true =>
    exfalso
    obtain ⟨t, ht⟩ := (matchesHere_iff_append _ _).mp hM
    rw [tagOf, tagOf, List.cons_append] at ht
    injection ht with _h1 h2
    simp only [List.append_eq] at h2
    rw [List.append_assoc, List.singleton_append] at h2
    obtain ⟨hab, -⟩ := append_bracket_cancel a.data b.data t ha hb h2.symm
    exact hne (String.ext hab)

set_option maxRecDepth 4000 in
/-- No symbol name in the probe table contains the closing bracket. -/
theorem infos_vars_no_bracket : ∀ i ∈ infos, ']' ∉ i.2.2.data := by decide

/-- C5: for every pair of rows of the probe table with distinct symbol
names, neither bracketed tag is an initial segment of the other (so the
positional parser, which locates a tag by substring search and reads the
digits right after it, cannot misattribute digits between them). -/
theorem c5_tag_protocol_wellformed :
    ∀ i ∈ infos, ∀ j ∈ infos, i.2.2 ≠ j.2.2 →
      matchesHere (tagOf i.2.2) (tagOf j.2.2) = false ∧
      matchesHere (tagOf j.2.2) (tagOf i.2.2) = false := by
  intro i hi j hj hne
  exact ⟨tagOf_not_start hne (infos_vars_no_bracket i hi)
      (infos_vars_no_bracket j hj),
    tagOf_not_start (fun h => hne h.symm) (infos_vars_no_bracket j hj)
      (infos_vars_no_bracket i hi)⟩

/-- Witness for C5 at the concrete pair `FF_API_VDPAU` / `FF_API_CAP_VDPAU`
(symbol names where one is a suffix of the other, so the brackets do the
work). -/
theorem c5_tag_protocol_wellformed_witness :
    matchesHere (tagOf "FF_API_VDPAU") (tagOf "FF_API_CAP_VDPAU") = false ∧
    matchesHere (tagOf "FF_API_CAP_VDPAU") (tagOf "FF_API_VDPAU") = false :=
  c5_tag_protocol_wellformed ("libavutil/avutil.h", none, "FF_API_VDPAU")
    (by decide) ("libavcodec/avcodec.h", some "avcodec", "FF_API_CAP_VDPAU")
    (by decide) (by decide)

/-- Witness for C3: each branch of the resolution theorem applied at a
concrete environment/world. -/
theorem c3_sysroot_resolution_witness :
    find_sysroot envNative worldBare = .ok none false ∧
    find_sysroot envIos worldBare = .fatal "failed to run xcrun" ∧
    find_sysroot envIos worldBadXcrun =
      .fatal ("xcrun returned invalid sysroot path: " ++ stripNl "/no/such/sdk\n") ∧
    find_sysroot envAndroid worldBare =
      .fatal ("Android sysroot path does not exists: " ++ "/ndk/sysroot") ∧
    find_sysroot envOtherCross worldBare = .ok none true :=
  ⟨c3_sysroot_resolution.1 envNative worldBare (by right; rfl),
   c3_sysroot_resolution.2.1 envIos worldBare (by decide) (by decide) rfl rfl rfl,
   c3_sysroot_resolution.2.2.1 envIos worldBadXcrun ⟨true, "/no/such/sdk\n", ""⟩
     (by decide) (by decide) rfl rfl rfl rfl rfl,
   c3_sysroot_resolution.2.2.2.1 envAndroid worldBare "/ndk/sysroot"
     (by decide) (by decide) rfl rfl rfl rfl,
   c3_sysroot_resolution.2.2.2.2 envOtherCross worldBare
     (by decide) (by decide) rfl (by decide) (by decide)⟩

/-- C2: the build pipeline is idempotent with respect to acquisition and
build: when the installed artifact already exists, fetch and build are
skipped, the filesystem state is unchanged, and a re-invocation also skips
fetch/build and emits the identical signal set. -/
theorem c2_build_idempotent (e : Env) (pf : ProbeFacts) (fs : FS)
    (h : fs.artifactInstalled = true) :
    (buildPipeline e pf fs).fetchedAndBuilt = false ∧
    (buildPipeline e pf fs).fs = fs ∧
    (buildPipeline e pf ((buildPipeline e pf fs).fs)).fetchedAndBuilt = false ∧
    (buildPipeline e pf ((buildPipeline e pf fs).fs)).signals =
      (buildPipeline e pf fs).signals := by
  simp [buildPipeline, h]

/-- Witness for C2 at a concrete environment, probe facts and installed
state. -/
theorem c2_build_idempotent_witness :
    (buildPipeline envEmpty pfEmpty ⟨true⟩).fetchedAndBuilt = false ∧
    (buildPipeline envEmpty pfEmpty ⟨true⟩).fs = ⟨true⟩ ∧
    (buildPipeline envEmpty pfEmpty ((buildPipeline envEmpty pfEmpty ⟨true⟩).fs)).fetchedAndBuilt = false ∧
    (buildPipeline envEmpty pfEmpty ((buildPipeline envEmpty pfEmpty ⟨true⟩).fs)).signals =
      (buildPipeline envEmpty pfEmpty ⟨true⟩).signals :=
  c2_build_idempotent envEmpty pfEmpty ⟨true⟩ rfl

/-- C9: the generated probe translation unit is compiled with the compiler
targeting the host triple from the `HOST` environment variable, never the
cross-compilation target: whenever `HOST` is set the built command targets
it, and in any cross configuration (`TARGET` distinct from `HOST`) the
command's target differs from the cross target. -/
theorem c9_probe_host_compiled (e : Env) (include_paths : List String)
    (h : String) (hh : e.var "HOST" = some h) :
    probeCompileCmd e include_paths = some ⟨h, include_paths⟩ ∧
    ∀ t, e.var "TARGET" = some t → t ≠ h →
      ∀ cmd, probeCompileCmd e include_paths = some cmd → cmd.target ≠ t := by
  constructor
  · rw [probeCompileCmd, hh, Option.map_some']
  · intro t _ht hne cmd hcmd
    rw [probeCompileCmd, hh, Option.map_some'] at hcmd
    have : cmd = ⟨h, include_paths⟩ := (Option.some_inj.mp hcmd).symm
    subst this
    exact fun hct => hne (hct ▸ rfl)

/-- Witness for C9 at the concrete ios cross environment. -/
theorem c9_probe_host_compiled_witness :
    probeCompileCmd envIos ["dist/include"] =
      some ⟨"aarch64-apple-darwin", ["dist/include"]⟩ ∧
    ∀ t, envIos.var "TARGET" = some t → t ≠ "aarch64-apple-darwin" →
      ∀ cmd, probeCompileCmd envIos ["dist/include"] = some cmd →
        cmd.target ≠ t :=
  c9_probe_host_compiled envIos ["dist/include"] "aarch64-apple-darwin" rfl

end FfmpegSys
